import Mathlib

/-!
Verification of the frontend-prep repository's Python example scripts
(backend/python/examples). Each script is a standalone top-to-bottom
sequence of statements. We embed the behaviour the specification talks
about: exception raising and handling, generator and iterator protocols,
the decorator wrapper, filesystem side effects, imports, and the absence
of concurrency constructs.

Machine model conventions:
  * Python exceptions are the inductive `PyErr`; fallible execution is the
    state-plus-error monad `PyAct`.
  * Python integers are `Int` (arbitrary precision, as in Python); true
    division `a / b` is modelled over `Rat` (exact; the scripts only ever
    print the quotient, so the float rounding of CPython is irrelevant to
    every claim considered here).
  * The filesystem is `FS`: sets (lists) of directory and file paths,
    a current working directory and a permissions table. Paths are lists
    of components.
-/

/-- Python exception kinds that the scripts of this repository can raise
or catch. -/
inductive PyErr where
  | assertionError
  | nameError
  | zeroDivisionError
  | typeError
  | valueError
  | eofError
  | stopIteration
  | fileNotFoundError
  | fileExistsError
  | notADirectoryError
  | isADirectoryError
  | directoryNotEmptyError
deriving DecidableEq, Repr

/-- Result of running a Python statement sequence over a state of type
`σ`: either normal completion with a value, or an uncaught exception.
In both cases the state at that point is kept (Python does not roll back
side effects when an exception propagates). -/
inductive PyResult (σ : Type) (α : Type) where
  | ok (a : α) (s : σ)
  | raised (e : PyErr) (s : σ)
deriving DecidableEq, Repr

/-- State-and-exception monad for embedding straight-line Python code. -/
def PyAct (σ : Type) (α : Type) : Type := σ → PyResult σ α

/-- Sequencing: run `x`; on normal completion continue with `f`, on an
exception propagate it. -/
def PyAct.bind (x : PyAct σ α) (f : α → PyAct σ β) : PyAct σ β := fun s =>
  match x s with
  | .ok a s2 => f a s2
  | .raised e s2 => .raised e s2

/-- A value-producing expression with no effect. -/
def PyAct.pure (a : α) : PyAct σ α := fun s => .ok a s

instance : Monad (PyAct σ) where
  pure := PyAct.pure
  bind := PyAct.bind

/-- Raise a Python exception. -/
def pyThrow (e : PyErr) : PyAct σ α := fun s => .raised e s

/-- Read the current state. -/
def pyGet : PyAct σ σ := fun s => .ok s s

/-- Update the current state. -/
def pyModify (f : σ → σ) : PyAct σ Unit := fun s => .ok () (f s)

/-- A statement that cannot raise and has no modelled effect (a print of
a locally computed value, a def, a class definition, a loop over local
data, and so on). -/
def pyPass : PyAct σ Unit := fun s => .ok () s

/-- Python `try`/`except`: run the body; if it raises, run the handler on
the state at the point of the raise. The handler re-raises (via
`pyThrow`) when its clauses do not match. -/
def pyTry (body : PyAct σ Unit) (handler : PyErr → PyAct σ Unit) :
    PyAct σ Unit := fun s =>
  match body s with
  | .ok a s2 => .ok a s2
  | .raised e s2 => handler e s2

/-- Python `finally`: the `fin` action runs after `act` whether or not
`act` raised; an exception of `act` propagates after `fin` (unless `fin`
itself raises, in which case that exception wins, as in Python). -/
def pyFinally (act fin : PyAct σ Unit) : PyAct σ Unit := fun s =>
  match act s with
  | .ok _ s2 => fin s2
  | .raised e s2 =>
    match fin s2 with
    | .ok _ s3 => .raised e s3
    | .raised e2 s3 => .raised e2 s3

/-- Python `assert cond`: raises `AssertionError` when the condition is
false. -/
def pyAssert (cond : Bool) : PyAct σ Unit :=
  if cond then pyPass else pyThrow .assertionError

/-- Referencing a name that may have been deleted with `del`: a bound
name evaluates to its value, an unbound one raises `NameError`. -/
def pyNameRef (v : Option Int) : PyAct σ Int :=
  match v with
  | some n => pure n
  | none => pyThrow .nameError

/-- Parse an unsigned run of decimal digits (empty input is not a
number). -/
def pyParseNatAux : List Char → Nat → Option Nat
  | [], acc => some acc
  | c :: rest, acc =>
    if c.isDigit then pyParseNatAux rest (acc * 10 + (c.toNat - 48))
    else none

/-- Parse a decimal integer literal with an optional sign. -/
def pyParseInt : List Char → Option Int
  | [] => none
  | '-' :: rest =>
    if rest = [] then none else (pyParseNatAux rest 0).map (fun n => -(n : Int))
  | '+' :: rest =>
    if rest = [] then none else (pyParseNatAux rest 0).map (fun n => (n : Int))
  | cs => (pyParseNatAux cs 0).map (fun n => (n : Int))

/-- Python `int(s)` on a string: a decimal integer literal parses,
anything else raises `ValueError`. (This parser covers the literals the
scripts feed it, `'hi'`, `'123'`, and interactive numeric input; the
whitespace stripping and underscore grouping of the CPython parser play
no role here.) -/
def pyIntOfString (s : String) : Except PyErr Int :=
  match pyParseInt s.data with
  | some n => .ok n
  | none => .error .valueError

/-- Python true division on integers, exact: `a / b` raises
`ZeroDivisionError` when `b = 0`. -/
def pyDiv (a b : Int) : Except PyErr Rat :=
  if b = 0 then .error .zeroDivisionError else .ok ((a : Rat) / (b : Rat))

/-- Lift a fallible pure expression into a statement context. -/
def pyEval (x : Except PyErr α) : PyAct σ α :=
  match x with
  | .ok a => pure a
  | .error e => pyThrow e

/-! ## Filesystem model -/

/-- A path, as a list of components from the root. -/
abbrev EntryPath := List String

/-- Split a character list at slash characters. -/
def splitSlashAux : List Char → List Char → List (List Char)
  | [], acc => [acc.reverse]
  | c :: rest, acc =>
    if c = '/' then acc.reverse :: splitSlashAux rest []
    else splitSlashAux rest (c :: acc)

/-- Parse an absolute or relative path string into components. -/
def parsePath (p : String) : EntryPath :=
  ((splitSlashAux p.data []).map (fun l => String.mk l)).filter (fun c => c ≠ "")

/-- A path string is absolute when it starts with a slash. -/
def isAbsolute (p : String) : Bool :=
  match p.data with
  | c :: _ => c = '/'
  | [] => false

/-- Filesystem state: existing directories, existing regular files, the
current working directory of the process, and a permission table
(path to mode bits). -/
structure FS where
  dirs : List EntryPath
  files : List EntryPath
  cwd : EntryPath
  perms : List (EntryPath × Nat)
deriving DecidableEq, Repr

/-- Resolve a path string against the current working directory. -/
def FS.resolve (fs : FS) (p : String) : EntryPath :=
  if isAbsolute p then parsePath p else fs.cwd ++ parsePath p

/-- Observable output drawn from the filesystem (the prints of
`directory_and_filemanage9.py` that echo filesystem state). Prints of
locally computed constants are not observations of shared state and are
not recorded here. -/
inductive FsObs where
  | cwdIs (p : EntryPath)
  | listingIs (l : List EntryPath)
deriving DecidableEq, Repr

/-- Execution state for a script run: the filesystem and the
filesystem-derived output produced so far. -/
structure St where
  fs : FS
  out : List FsObs
deriving DecidableEq, Repr

/-- The children of directory `d`: entries lying directly below it. -/
def FS.childrenOf (fs : FS) (d : EntryPath) : List EntryPath :=
  (fs.dirs ++ fs.files).filter
    (fun e => e.length = d.length + 1 && d.isPrefixOf e)

/-- Replace the prefix `a` of a path with `b` (used by `os.rename`,
which moves a whole subtree). -/
def remapPrefix (a b p : EntryPath) : EntryPath :=
  if a.isPrefixOf p then b ++ p.drop a.length else p

/-- Model of `print(os.getcwd())` (and of `os.getcwdb`, which differs
only in rendering): record the current working directory. -/
def osPrintGetcwd : PyAct St Unit :=
  pyModify (fun st => ⟨st.fs, st.out ++ [.cwdIs st.fs.cwd]⟩)

/-- Model of `os.chdir(p)`: `FileNotFoundError` when the target does not
exist, `NotADirectoryError` when it is a regular file. -/
def osChdir (p : String) : PyAct St Unit := fun st =>
  let q := st.fs.resolve p
  if q ∈ st.fs.dirs then
    .ok () ⟨⟨st.fs.dirs, st.fs.files, q, st.fs.perms⟩, st.out⟩
  else if q ∈ st.fs.files then .raised .notADirectoryError st
  else .raised .fileNotFoundError st

/-- Model of `print(os.listdir())`: record the entries of the current
working directory. -/
def osPrintListdir : PyAct St Unit :=
  pyModify (fun st => ⟨st.fs, st.out ++ [.listingIs (st.fs.childrenOf st.fs.cwd)]⟩)

/-- Model of `os.mkdir(p)`: `FileExistsError` when the path exists,
`FileNotFoundError` when its parent directory does not. -/
def osMkdir (p : String) : PyAct St Unit := fun st =>
  let q := st.fs.resolve p
  if q ∈ st.fs.dirs ∨ q ∈ st.fs.files then .raised .fileExistsError st
  else if q.dropLast ∈ st.fs.dirs then
    .ok () ⟨⟨q :: st.fs.dirs, st.fs.files, st.fs.cwd, st.fs.perms⟩, st.out⟩
  else .raised .fileNotFoundError st

/-- Model of `os.rename(a, b)`: the source must exist and the
destination must be fresh (the script renames a just-created directory
to a fresh name, so the POSIX overwrite cases are never exercised);
renaming a directory moves its whole subtree. -/
def osRename (a b : String) : PyAct St Unit := fun st =>
  let qa := st.fs.resolve a
  let qb := st.fs.resolve b
  if qa ∈ st.fs.dirs ∨ qa ∈ st.fs.files then
    if qb ∈ st.fs.dirs ∨ qb ∈ st.fs.files then .raised .fileExistsError st
    else
      .ok () ⟨⟨st.fs.dirs.map (remapPrefix qa qb),
               st.fs.files.map (remapPrefix qa qb),
               st.fs.cwd, st.fs.perms⟩, st.out⟩
  else .raised .fileNotFoundError st

/-- Model of `os.chmod(p, mode)`: `FileNotFoundError` when the path does
not exist; otherwise record the new mode in the permission table. -/
def osChmod (p : String) (mode : Nat) : PyAct St Unit := fun st =>
  let q := st.fs.resolve p
  if q ∈ st.fs.dirs ∨ q ∈ st.fs.files then
    .ok () ⟨⟨st.fs.dirs, st.fs.files, st.fs.cwd,
             (q, mode) :: st.fs.perms.filter (fun e => e.fst ≠ q)⟩, st.out⟩
  else .raised .fileNotFoundError st

/-- Model of `os.remove(p)`: removes a regular file;
`IsADirectoryError` on a directory, `FileNotFoundError` otherwise. -/
def osRemove (p : String) : PyAct St Unit := fun st =>
  let q := st.fs.resolve p
  if q ∈ st.fs.files then
    .ok () ⟨⟨st.fs.dirs, st.fs.files.erase q, st.fs.cwd, st.fs.perms⟩, st.out⟩
  else if q ∈ st.fs.dirs then .raised .isADirectoryError st
  else .raised .fileNotFoundError st

/-- Model of `os.rmdir(p)`: removes an empty directory;
`NotADirectoryError` on a regular file, `FileNotFoundError` when the
path does not exist, an error on a non-empty directory. -/
def osRmdir (p : String) : PyAct St Unit := fun st =>
  let q := st.fs.resolve p
  if q ∈ st.fs.dirs then
    if st.fs.childrenOf q = [] then
      .ok () ⟨⟨st.fs.dirs.erase q, st.fs.files, st.fs.cwd, st.fs.perms⟩, st.out⟩
    else .raised .directoryNotEmptyError st
  else if q ∈ st.fs.files then .raised .notADirectoryError st
  else .raised .fileNotFoundError st

/-- Model of `open(p, 'w')` used in a `with` block: creates (or
truncates) a regular file; `IsADirectoryError` when the path names a
directory. -/
def osOpenWrite (p : String) : PyAct St Unit := fun st =>
  let q := st.fs.resolve p
  if q ∈ st.fs.dirs then .raised .isADirectoryError st
  else if q ∈ st.fs.files then .ok () st
  else .ok () ⟨⟨st.fs.dirs, q :: st.fs.files, st.fs.cwd, st.fs.perms⟩, st.out⟩

/-- The absolute directory hard-coded in
`directory_and_filemanage9.py` line 7. -/
def pyDirString : String := "/Users/srinu/Documents/frontend-prep/backend/python"

/-- The same directory as a component path. -/
def pyDir : EntryPath := parsePath pyDirString

/-- Model of `directory_and_filemanage9.py`, statement by statement
(lines 3 to 19 of the source; `stat.S_IRWXU` is mode `0o700 = 448`). -/
def directory_and_filemanage9_run : PyAct St Unit := do
  osPrintGetcwd                                -- line 3: print(os.getcwd())
  osPrintGetcwd                                -- line 4: print(os.getcwdb())
  osChdir pyDirString                          -- line 7: os.chdir(...)
  osPrintGetcwd                                -- line 8: print(os.getcwd())
  osPrintListdir                               -- line 9: print(os.listdir())
  osMkdir "test_folder"                        -- line 11: os.mkdir
  osRename "test_folder" "New_folder"          -- line 13: os.rename
  osChmod "New_folder" 448                     -- line 15: os.chmod(..., stat.S_IRWXU)
  osRemove "Test.txt"                          -- line 17: os.remove
  osRmdir "Test.txt"                           -- line 19: os.rmdir

/-- The state at the end of a run, whether it completed or raised. -/
def PyResult.state : PyResult σ α → σ
  | .ok _ s => s
  | .raised _ s => s

/-- Did the run complete without an uncaught exception? -/
def PyResult.isOk : PyResult σ α → Bool
  | .ok _ _ => true
  | .raised _ _ => false

/-! ## Model of `example5.py` -/

/-- Lines 1 to 28 of `example5.py`: prints of boolean and `None`
comparisons, a void function defined and called, boolean operators, and
`import math as myMath` followed by `print(myMath.cos(myMath.pi))`.
None of these statements can raise. -/
def example5_before_assert : PyAct St Unit := do
  pyPass   -- line 4: print(5==5), prints True
  pyPass   -- line 5: print(5>5), prints False
  pyPass   -- lines 8-11: print(None==0), print(None==[]), print(None==False), print(None==None)
  pyPass   -- lines 14-19: def a_void_function, x = a_void_function(), print(x) prints None
  pyPass   -- lines 22-24: print(True and False), print(True or False), print(not True)
  pyPass   -- lines 27-28: import math as myMath; print(myMath.cos(myMath.pi))

/-- Lines 34 to 162 of `example5.py`, the statements after the asserts:
loops with break and continue, a class definition and calls, `del` of a
name followed by a read of it (line 67, a `NameError` acknowledged in
the source comment), a caught `ZeroDivisionError`, scoping demos, a
`with open('example.txt', 'w')` block, and a generator demo. -/
def example5_after_assert : PyAct St Unit := do
  pyPass   -- lines 35-38: for i in range(1,11) with break at 5, prints 1..4
  pyPass   -- lines 41-44: for i in range(1,11) with continue at 5
  pyPass   -- lines 47-55: class ExampleClass and two method invocations
  pyPass   -- lines 58-61: def function_name with pass; call prints hi
  let a : Option Int := some 10        -- line 64: a=10
  _ ← pyNameRef a                      -- line 65: print(a)
  let a : Option Int := none           -- line 66: del a
  _ ← pyNameRef a                      -- line 67: print(a) raises NameError
  pyPass   -- lines 70-76: if..elif..else prints Two
  -- lines 79-85: try: raise ZeroDivisionError / except ZeroDivisionError / finally
  pyFinally
    (pyTry (do pyPass; pyThrow .zeroDivisionError)
      (fun e => if e = .zeroDivisionError then pyPass else pyThrow e))
    pyPass
  pyPass   -- lines 88-89: for i in range(1,10): print(i)
  pyPass   -- lines 92-94: import math; from math import cos; print(cos(10))
  pyPass   -- lines 97-109: global variable demo with read1, write1, write2
  pyPass   -- lines 112-114: in, not in on a list
  pyPass   -- lines 117-118: is operator
  pyPass   -- lines 121-123: lambda doubling, loop printing 2,4,6,8
  pyPass   -- lines 126-134: nonlocal demo
  pyPass   -- lines 137-138: def function1 with pass
  pyPass   -- lines 141-144: function with return value, prints 10
  pyPass   -- lines 147-150: while loop printing 5..1
  osOpenWrite "example.txt"   -- lines 153-154: with open('example.txt', 'w') as my_file
  pyPass   -- lines 157-162: generator of squares, loop printing them

/-- The whole of `example5.py`, top to bottom. Line 31 is
`assert 5 > 5` (the source comment next to it reads `# Assertion
Error`), line 32 is `assert 5 == 5`. -/
def example5_run : PyAct St Unit := do
  example5_before_assert
  pyAssert (decide (5 > 5))    -- line 31: assert 5 > 5
  pyAssert (decide (5 = 5))    -- line 32: assert 5 == 5
  example5_after_assert

/-! ## The scripts of the repository -/

/-- The 25 Python files under backend/python/examples, one constructor
per file basename. -/
inductive Script where
  | array_imple3
  | decorators34
  | directory_and_filemanage9
  | error_and_exception25
  | example10
  | example12
  | example13
  | example14
  | example16
  | example17
  | example19
  | example2
  | example21
  | example26
  | example28
  | example29
  | example33
  | example38
  | example5
  | example6
  | example7
  | global_local_nonlocal15
  | multiple_inheritance20
  | statements_and_comments31
  | strings11
deriving DecidableEq, Repr

/-- All 25 scripts. -/
def allScripts : List Script :=
  [.array_imple3, .decorators34, .directory_and_filemanage9,
   .error_and_exception25, .example10, .example12, .example13, .example14,
   .example16, .example17, .example19, .example2, .example21, .example26,
   .example28, .example29, .example33, .example38, .example5, .example6,
   .example7, .global_local_nonlocal15, .multiple_inheritance20,
   .statements_and_comments31, .strings11]

/-- Effect model of each script over the shared machine state (the
filesystem). `directory_and_filemanage9.py` and `example5.py` are the
only two scripts whose sources contain a statement touching the
filesystem; every other script is a sequence of statements over local
data only (prints, local mutation, class and function definitions,
stdin reads in `example26.py`), so its filesystem effect is that of a
no-op. Finer models of the non-filesystem behaviour of individual
scripts (`error_and_exception25.py`, `example26.py`, `example33.py`,
`example17.py`, `decorators34.py`) appear separately below. -/
def scriptRun : Script → PyAct St Unit
  | .directory_and_filemanage9 => directory_and_filemanage9_run
  | .example5 => example5_run
  | _ => pyPass

/-- The filesystem after a script runs (to completion or to an uncaught
exception) from filesystem `fs`. -/
def scriptFS (s : Script) (fs : FS) : FS :=
  ((scriptRun s) ⟨fs, []⟩).state.fs

/-- The filesystem-derived output a script prints when run from
filesystem `fs`. -/
def scriptObs (s : Script) (fs : FS) : List FsObs :=
  ((scriptRun s) ⟨fs, []⟩).state.out

/-- Whether a script, run from filesystem `fs`, reaches its last
statement with no uncaught exception. -/
def scriptCompletes (s : Script) (fs : FS) : Bool :=
  ((scriptRun s) ⟨fs, []⟩).isOk

/-! ## Syntactic summaries of the scripts -/

/-- Kinds of filesystem calls appearing in the sources. -/
inductive FsCallKind where
  | getcwd
  | getcwdb
  | chdir
  | listdir
  | mkdir
  | rename
  | chmod
  | removeFile
  | rmdir
  | openWrite
deriving DecidableEq, Repr

/-- Syntactic summary of one script source: the modules it imports, the
filesystem calls it contains in source order, and whether it reads
stdin, starts a thread, starts a process, or uses async constructs. -/
structure ScriptSummary where
  imports : List String
  fsCalls : List FsCallKind
  readsStdin : Bool
  spawnsThread : Bool
  spawnsProcess : Bool
  usesAsync : Bool
deriving DecidableEq, Repr

/-- Summary of each script, read off its source text. Imports are
listed once per import statement; `example5.py` imports `math` three
times (lines 27, 92, 93). -/
def summary : Script → ScriptSummary
  | .array_imple3 => ⟨[], [], false, false, false, false⟩
  | .decorators34 => ⟨[], [], false, false, false, false⟩
  | .directory_and_filemanage9 =>
    ⟨["os", "stat"],
     [.getcwd, .getcwdb, .chdir, .getcwd, .listdir, .mkdir, .rename,
      .chmod, .removeFile, .rmdir],
     false, false, false, false⟩
  | .error_and_exception25 => ⟨[], [], false, false, false, false⟩
  | .example10 => ⟨[], [], false, false, false, false⟩
  | .example12 => ⟨[], [], false, false, false, false⟩
  | .example13 => ⟨["decimal", "fractions", "math", "random"], [], false, false, false, false⟩
  | .example14 => ⟨[], [], false, false, false, false⟩
  | .example16 => ⟨[], [], false, false, false, false⟩
  | .example17 => ⟨[], [], false, false, false, false⟩
  | .example19 => ⟨[], [], false, false, false, false⟩
  | .example2 => ⟨[], [], false, false, false, false⟩
  | .example21 => ⟨[], [], false, false, false, false⟩
  | .example26 => ⟨[], [], true, false, false, false⟩
  | .example28 => ⟨[], [], false, false, false, false⟩
  | .example29 => ⟨[], [], false, false, false, false⟩
  | .example33 => ⟨[], [], false, false, false, false⟩
  | .example38 => ⟨["re"], [], false, false, false, false⟩
  | .example5 => ⟨["math", "math", "math"], [.openWrite], false, false, false, false⟩
  | .example6 => ⟨[], [], false, false, false, false⟩
  | .example7 => ⟨[], [], false, false, false, false⟩
  | .global_local_nonlocal15 => ⟨[], [], false, false, false, false⟩
  | .multiple_inheritance20 => ⟨[], [], false, false, false, false⟩
  | .statements_and_comments31 => ⟨[], [], false, false, false, false⟩
  | .strings11 => ⟨[], [], false, false, false, false⟩

/-- The module names of the repository files themselves (none of them
is ever imported by a script). -/
def repoModules : List String :=
  ["array_imple3", "decorators34", "directory_and_filemanage9",
   "error_and_exception25", "example10", "example12", "example13",
   "example14", "example16", "example17", "example19", "example2",
   "example21", "example26", "example28", "example29", "example33",
   "example38", "example5", "example6", "example7",
   "global_local_nonlocal15", "multiple_inheritance20",
   "statements_and_comments31", "strings11"]

/-- The CPython standard-library modules referenced by the scripts.
That these seven modules belong to the standard library is a fact about
CPython recorded here for the import theorem. -/
def pythonStdlibModules : List String :=
  ["decimal", "fractions", "math", "os", "random", "re", "stat"]

/-- The scripts whose sources contain at least one filesystem call. -/
def scriptsWithFsCalls : List Script :=
  allScripts.filter (fun s => (summary s).fsCalls ≠ [])

/-! ## Model of `error_and_exception25.py` -/

/-- A printed line of `error_and_exception25.py`: the handler and
`finally` messages are plain text; the never-reached print on line 8
(`print('Value of b:', b)`) would carry the parsed integer. -/
inductive Line25 where
  | msg (s : String)
  | valueOfB (b : Int)
deriving DecidableEq, Repr

/-- Is this printed line the line 8 print of the value of `b`? -/
def Line25.isValueOfB : Line25 → Bool
  | .valueOfB _ => true
  | .msg _ => false

/-- Output state for `error_and_exception25.py`: the printed lines. -/
abbrev Out25 := List Line25

/-- Record one printed line. -/
def print25 (l : Line25) : PyAct Out25 Unit :=
  pyModify (fun out => out ++ [l])

/-- Model of `error_and_exception25.py` top to bottom: four try blocks
(lines 2-10, 14-19, 22-25, 28-34). -/
def error_and_exception25_run : PyAct Out25 Unit := do
  -- lines 2-10: a = 'hi'; b = int(a); print('Value of b:', b) / bare except
  pyTry
    (do
      pyPass                                 -- line 6: a = 'hi'
      let b ← pyEval (pyIntOfString "hi")    -- line 7: b = int(a)
      print25 (.valueOfB b)                  -- line 8: print('Value of b:', b)
      )
    (fun _e => print25 (.msg "Exception Caught!"))  -- lines 9-10: bare except
  -- lines 14-19: x = 5; y = 0; z = x/y / except ZeroDivisionError
  pyTry
    (do
      pyPass                                 -- lines 15-16: x = 5; y = 0
      let _ ← pyEval (pyDiv 5 0)             -- line 17: z = x/y
      pure ())
    (fun e =>
      if e = .zeroDivisionError then print25 (.msg "Division by Zero is not possible.")
      else pyThrow e)
  -- lines 22-25: raise TypeError / except TypeError
  pyTry
    (pyThrow .typeError)                     -- line 23: raise TypeError
    (fun e =>
      if e = .typeError then print25 (.msg "Type Exception Caught!")
      else pyThrow e)
  -- lines 28-34: try ... raise TypeError / bare except / finally
  pyFinally
    (pyTry
      (do
        print25 (.msg "Im in Try block")     -- line 29
        pyThrow .typeError)                  -- line 30: raise TypeError
      (fun _e => print25 (.msg "Im in Except block")))
    (print25 (.msg "Im in finally block"))

/-- The output `error_and_exception25.py` prints. -/
def error25_output : Out25 :=
  ((error_and_exception25_run []).state)

/-! ## Model of `example26.py` -/

/-- A printed line of `example26.py`: either a plain message or the
line 8 print of `'{} / {} = {}'.format(a, b, c)` carrying its data. -/
inductive Line26 where
  | msg (s : String)
  | divResult (a b : Int) (c : Rat)
deriving DecidableEq, Repr

/-- State for `example26.py`: the pending stdin lines and the printed
output. -/
structure St26 where
  stdin : List String
  out : List Line26
deriving DecidableEq, Repr

/-- Python `input(prompt)`: consume the next stdin line; at end of
input it raises `EOFError`. -/
def pyInput : PyAct St26 String := fun st =>
  match st.stdin with
  | [] => .raised .eofError st
  | l :: rest => .ok l ⟨rest, st.out⟩

/-- Record one printed line of `example26.py`. -/
def print26 (l : Line26) : PyAct St26 Unit :=
  pyModify (fun st => ⟨st.stdin, st.out ++ [l]⟩)

/-- The try body of `example26.py` (lines 3-8): read and parse two
integers, raise `TypeError` when the first is negative, divide, and
print the result. -/
def example26_try_body : PyAct St26 Unit := do
  let sa ← pyInput                        -- line 3: input(...)
  let a ← pyEval (pyIntOfString sa)       -- line 3: int(...)
  let sb ← pyInput                        -- line 4: input(...)
  let b ← pyEval (pyIntOfString sb)       -- line 4: int(...)
  if a < 0 then pyThrow .typeError else pyPass  -- lines 5-6: raise TypeError
  let c ← pyEval (pyDiv a b)              -- line 7: c = a/b
  print26 (.divResult a b c)              -- line 8

/-- The handler chain of `example26.py` (lines 9-16): specific clauses
for `ZeroDivisionError`, `ValueError` and `TypeError`, then a bare
`except` that catches everything else. -/
def example26_handler (e : PyErr) : PyAct St26 Unit :=
  if e = .zeroDivisionError then
    print26 (.msg "Division by zero is not possible...")       -- lines 9-10
  else if e = .valueError then
    print26 (.msg "The data types are not proper...")          -- lines 11-12
  else if e = .typeError then
    print26 (.msg "The data is not in range...")               -- lines 13-14
  else
    print26 (.msg "default exception handling if none of the exception matches...")  -- lines 15-16

/-- The `finally` block of `example26.py` (lines 17-18). -/
def example26_finally : PyAct St26 Unit :=
  print26 (.msg "Anyways i will exceute")

/-- Model of `example26.py` top to bottom: one try block with four
handlers and a `finally`. -/
def example26_run : PyAct St26 Unit :=
  pyFinally (pyTry example26_try_body example26_handler) example26_finally

/-! ## Generators and iterators -/

/-- Collect the yields of a generator or iterator: make up to `fuel`
calls to `step`, stopping early at `StopIteration` (`none`); returns
the yielded values and the final state. -/
def genRun (step : σ → Option (α × σ)) : Nat → σ → List α × σ
  | 0, s => ([], s)
  | fuel + 1, s =>
    match step s with
    | some (v, s2) =>
      let r := genRun step fuel s2
      (v :: r.1, r.2)
    | none => ([], s)

/-- State of a `my_generator` instance from `example33.py`: the resume
point (how many yields happened so far) and the current value of the
local `n`. -/
structure GenSt where
  pc : Nat
  n : Int
deriving DecidableEq, Repr

/-- A fresh `my_generator()` call: nothing has run yet; the local `n`
is not yet assigned (it is assigned on line 3 before any use, so the
placeholder value 0 is never read). -/
def my_generator_start : GenSt := ⟨0, 0⟩

/-- One resume of `my_generator` (`example33.py` lines 2-14): the first
resume runs `n = 1` and yields `n`; the second and third run `n += 1`
and yield `n`; after the third yield the function body ends, so a
further call raises `StopIteration` (`none`). -/
def my_generator_next : GenSt → Option (Int × GenSt)
  | ⟨0, _⟩ => some (1, ⟨1, 1⟩)           -- lines 3-6: n = 1; print; yield n
  | ⟨1, n⟩ => some (n + 1, ⟨2, n + 1⟩)   -- lines 8-10: n += 1; print; yield n
  | ⟨2, n⟩ => some (n + 1, ⟨3, n + 1⟩)   -- lines 12-14: n += 1; print; yield n
  | ⟨_ + 3, _⟩ => none                   -- body exhausted: StopIteration

/-- Python `range(start, stop, -1)` (`example33.py` line 31 uses
`range(length-1, -1, -1)`): counts down from `start` while above
`stop`. -/
def rangeDown (start stop : Int) : List Int :=
  if start ≤ stop then [] else start :: rangeDown (start - 1) stop
termination_by (start - stop).toNat
decreasing_by
  simp only [not_le] at *
  omega

/-- Python string indexing `s[i]`: negative indices count from the end;
an out-of-range index raises `IndexError` (modelled as `none`). -/
def pyCharAt (s : List Char) (i : Int) : Option Char :=
  if i < 0 then
    if 0 ≤ i + s.length then s.get? (i + s.length).toNat else none
  else s.get? i.toNat

/-- Yield loop body of `reverse_string`: yield `my_string[i]` for each
index `i` in turn, aborting with `none` if an index were out of range
(an `IndexError`, which in fact never happens). -/
def yieldChars (s : List Char) : List Int → Option (List Char)
  | [] => some []
  | i :: rest =>
    match pyCharAt s i with
    | none => none
    | some c => (yieldChars s rest).map (fun cs => c :: cs)

/-- Model of `reverse_string` from `example33.py` lines 29-32: the
sequence of characters yielded by
`for i in range(length-1, -1, -1): yield my_string[i]`, where `length =
len(my_string)`. -/
def reverse_string (s : List Char) : Option (List Char) :=
  yieldChars s (rangeDown ((s.length : Int) - 1) (-1))

/-- The `__iter__` method of `Pow_of_Two` (`example17.py` lines 28-30)
sets the counter `self.n` to 0. -/
def Pow_of_Two_iter : Nat := 0

/-- The `__next__` method of `Pow_of_Two` (`example17.py` lines 32-38):
while `n <= max`, return `2 ** n` and increment `n`; otherwise raise
`StopIteration`. -/
def Pow_of_Two_next (max n : Nat) : Option (Nat × Nat) :=
  if n ≤ max then some (2 ^ n, n + 1) else none

/-! ## Model of the decorator in `decorators34.py` -/

/-- Division as carried out by the undecorated `go_divide` body
(`decorators34.py` line 42: `return a/b`). -/
def pyDivRat (a b : Rat) : Except PyErr Rat :=
  if b = 0 then .error .zeroDivisionError else .ok (a / b)

/-- The decorator `my_smart_div` (`decorators34.py` lines 31-38): the
wrapper prints, then returns `None` without calling the wrapped
function when `y == 0`, and otherwise calls it. -/
def my_smart_div (func : Rat → Rat → Except PyErr Rat) (x y : Rat) :
    Except PyErr (Option Rat) :=
  if y = 0 then .ok none
  else (func x y).map some

/-- The undecorated body of `go_divide` (lines 41-42). -/
def go_divide_body (a b : Rat) : Except PyErr Rat := pyDivRat a b

/-- The decorated `go_divide = my_smart_div(go_divide)` (line 40). -/
def go_divide : Rat → Rat → Except PyErr (Option Rat) :=
  my_smart_div go_divide_body

/-! ## Proof infrastructure -/

/-- A demonstration filesystem: the directory tree down to the path
hard-coded in `directory_and_filemanage9.py`, a `Test.txt` file inside
it, and the process started in `/Users/srinu`. -/
def fsDemo : FS :=
  ⟨[[], ["Users"], ["Users", "srinu"], ["Users", "srinu", "Documents"],
    ["Users", "srinu", "Documents", "frontend-prep"],
    ["Users", "srinu", "Documents", "frontend-prep", "backend"], pyDir],
   [pyDir ++ ["Test.txt"]],
   ["Users", "srinu"], []⟩

/-- The path of the directory the script creates on line 11. -/
def tfPath : EntryPath := pyDir ++ ["test_folder"]

/-- The path the created directory is renamed to on line 13. -/
def nfPath : EntryPath := pyDir ++ ["New_folder"]

/-- The path of the `Test.txt` the script removes on line 17. -/
def testTxtPath : EntryPath := pyDir ++ ["Test.txt"]

/-- Unfold the monad notation to the underlying sequencing function. -/
@[simp] theorem bind_def (x : PyAct σ α) (f : α → PyAct σ β) :
    x >>= f = PyAct.bind x f := rfl

/-- Evaluate a sequence whose first statement completes normally. -/
theorem PyAct.bind_eval {x : PyAct σ α} {f : α → PyAct σ β} {s s2 : σ} {a : α}
    (h : x s = .ok a s2) : (x >>= f) s = f a s2 := by
  show PyAct.bind x f s = f a s2
  simp [PyAct.bind, h]

/-- Evaluate a sequence whose first statement raises. -/
theorem PyAct.bind_raised {x : PyAct σ α} {f : α → PyAct σ β} {s s2 : σ}
    {e : PyErr} (h : x s = .raised e s2) : (x >>= f) s = .raised e s2 := by
  show PyAct.bind x f s = _
  simp [PyAct.bind, h]


/-! ## Claims -/

/-- C1 counterexample. The claim states every script runs top-to-bottom
to completion with no unhandled exception; `example5.py`, run on the
demonstration filesystem, does not: it halts with an uncaught
`AssertionError`. -/
theorem c1_claim_false : scriptCompletes Script.example5 fsDemo = false := by
  decide

/-- C1 amended: not every script runs to completion. In `example5.py`
every statement before line 31 executes without raising, and the
`assert 5 > 5` on line 31 raises an `AssertionError` caught by no
inline handler, so the script halts there (from any starting state). -/
theorem c1_amended (st : St) :
    example5_before_assert st = .ok () st ∧
    example5_run st = .raised .assertionError st :=
  ⟨rfl, rfl⟩

/-- C3 counterexample. The claim states exactly one script performs
filesystem operations; in fact two distinct scripts contain them:
`directory_and_filemanage9.py` and `example5.py` (its
`open('example.txt', 'w')` on line 153). -/
theorem c3_claim_false :
    (summary Script.directory_and_filemanage9).fsCalls ≠ [] ∧
    (summary Script.example5).fsCalls ≠ [] ∧
    Script.directory_and_filemanage9 ≠ Script.example5 := by
  decide

/-- C5: `my_generator` yields 1, then 2, then 3; a fourth `next()`
finds the body exhausted and raises `StopIteration`; and iterating it
to exhaustion (as the `for` loop on lines 24-25 does) visits exactly
`[1, 2, 3]` in order. -/
theorem c5_theorem :
    my_generator_next my_generator_start = some (1, ⟨1, 1⟩) ∧
    my_generator_next ⟨1, 1⟩ = some (2, ⟨2, 2⟩) ∧
    my_generator_next ⟨2, 2⟩ = some (3, ⟨3, 3⟩) ∧
    my_generator_next ⟨3, 3⟩ = none ∧
    genRun my_generator_next 3 my_generator_start = ([1, 2, 3], ⟨3, 3⟩) ∧
    (genRun my_generator_next 4 my_generator_start).1 = [1, 2, 3] := by
  decide

/-- C7: the decorated `go_divide` never raises `ZeroDivisionError`: for
`y = 0` the wrapper returns `None` without invoking the division, and
otherwise it returns `x / y`. -/
theorem c7_theorem (x y : Rat) :
    go_divide x y ≠ .error .zeroDivisionError ∧
    (y = 0 → go_divide x y = .ok none) ∧
    (y ≠ 0 → go_divide x y = .ok (some (x / y))) := by
  by_cases h : y = 0 <;>
    simp [go_divide, my_smart_div, go_divide_body, pyDivRat, h, Except.map]

/-- C7 witness: the division the script actually performs
(`go_divide(20, 2)`, line 44) returns 10, and a zero denominator
returns `None`. -/
theorem c7_witness :
    go_divide 20 2 = .ok (some 10) ∧ go_divide 1 0 = .ok none := by
  constructor
  · have h := (c7_theorem 20 2).2.2 (by norm_num)
    rw [h]
    norm_num
  · exact (c7_theorem 1 0).2.1 rfl

/-- C10: no script starts a thread or a process or uses an async
construct: each runs as a single synchronous actor from start to
finish (so no mutable resource is shared between two logical actors). -/
theorem c10_theorem (s : Script) :
    (summary s).spawnsThread = false ∧
    (summary s).spawnsProcess = false ∧
    (summary s).usesAsync = false := by
  cases s <;> exact ⟨rfl, rfl, rfl⟩

/-- Running `Pow_of_Two` for `k` calls from counter `n`, with
`n + k = max + 1`, yields the powers `2 ^ n, ..., 2 ^ max` and leaves
the counter at `max + 1`. -/
theorem powRun_eval (max : Nat) :
    ∀ (k n : Nat), n + k = max + 1 →
      genRun (Pow_of_Two_next max) k n
        = ((List.range' n k).map (fun i => 2 ^ i), max + 1) := by
  intro k
  induction k with
  | zero =>
    intro n h
    have hn : n = max + 1 := by omega
    subst hn
    simp [genRun]
  | succ k ih =>
    intro n h
    have hn : n ≤ max := by omega
    rw [genRun]
    simp only [Pow_of_Two_next, if_pos hn]
    rw [ih (n + 1) (by omega)]
    simp [List.range'_succ]

/-- C8: a `Pow_of_Two(max)` object, after `iter()` resets its counter,
yields exactly `2^0, 2^1, ..., 2^max` in order over its first `max + 1`
calls to `next()`, leaving the counter at `max + 1`; the following
(that is, the `(max+2)`-th) call raises `StopIteration`. -/
theorem c8_theorem (max : Nat) :
    genRun (Pow_of_Two_next max) (max + 1) Pow_of_Two_iter
      = ((List.range (max + 1)).map (fun i => 2 ^ i), max + 1) ∧
    Pow_of_Two_next max (max + 1) = none := by
  constructor
  · have h := powRun_eval max (max + 1) 0 (by omega)
    rw [List.range_eq_range']
    exact h
  · simp [Pow_of_Two_next]

/-- Unfolding `range(k - 1, -1, -1)`: it counts down `k-1, ..., 1, 0`,
the reverse of `range k`. -/
theorem rangeDown_neg_one (k : Nat) :
    rangeDown ((k : Int) - 1) (-1)
      = ((List.range k).reverse).map (Nat.cast : Nat → Int) := by
  induction k with
  | zero =>
    rw [rangeDown]
    norm_num
  | succ k ih =>
    rw [rangeDown]
    have hlt : ¬ ((k + 1 : Nat) : Int) - 1 ≤ -1 := by push_cast; omega
    rw [if_neg hlt]
    have e1 : ((k + 1 : Nat) : Int) - 1 = (k : Int) := by push_cast; ring
    rw [e1, show (k : Int) - 1 = ((k : Nat) : Int) - 1 from rfl, ih]
    rw [List.range_succ, List.reverse_append]
    simp

/-- Indexing with a nonnegative in-range index returns the character
there. -/
theorem pyCharAt_nat (s : List Char) (a : Nat) (h : a < s.length) :
    pyCharAt s (a : Int) = some (s.getD a default) := by
  simp only [pyCharAt]
  rw [if_neg (by omega)]
  simp only [Int.toNat_natCast]
  rw [List.get?_eq_get h, List.getD_eq_get?, List.get?_eq_get h]
  rfl

/-- Yielding `s[i]` over a list of in-range indices produces exactly
the characters at those indices. -/
theorem yieldChars_all (s : List Char) :
    ∀ l : List Nat, (∀ i ∈ l, i < s.length) →
      yieldChars s (l.map (Nat.cast : Nat → Int))
        = some (l.map (fun i => s.getD i default)) := by
  intro l
  induction l with
  | nil => intro _; rfl
  | cons a t ih =>
    intro h
    have ha : a < s.length := h a (by simp)
    simp only [List.map_cons, yieldChars]
    rw [pyCharAt_nat s a ha, ih (fun i hi => h i (by simp [hi]))]
    rfl

/-- Reading a list back through `range` of its length is the identity. -/
theorem getD_range (s : List Char) :
    (List.range s.length).map (fun i => s.getD i default) = s := by
  induction s with
  | nil => rfl
  | cons a t ih =>
    rw [List.length_cons, List.range_succ_eq_map]
    simp only [List.map_cons, List.map_map, List.getD]
    refine congrArg (a :: ·) ?_
    exact ih

/-- C9: the characters yielded by `reverse_string(s)` are exactly the
reverse of `s`; applying `reverse_string` to the yielded string gives
back `s`, so the generator is an involution on strings. -/
theorem c9_theorem (s : List Char) :
    reverse_string s = some s.reverse ∧
    (reverse_string s).bind reverse_string = some s := by
  have main : ∀ t : List Char, reverse_string t = some t.reverse := by
    intro t
    unfold reverse_string
    rw [rangeDown_neg_one t.length]
    rw [yieldChars_all t ((List.range t.length).reverse)
      (fun i hi => List.mem_range.mp (List.mem_reverse.mp hi))]
    rw [List.map_reverse, getD_range]
  refine ⟨main s, ?_⟩
  rw [main s]
  simp only [Option.some_bind, main s.reverse, List.reverse_reverse]

/-- A `try` whose handler always completes normally completes
normally itself. -/
theorem pyTry_eq_ok (body : PyAct σ Unit) (handler : PyErr → PyAct σ Unit)
    (hh : ∀ e st, ∃ st2, handler e st = .ok () st2) (st : σ) :
    ∃ st2, pyTry body handler st = .ok () st2 := by
  unfold pyTry
  split
  · exact ⟨_, rfl⟩
  · apply hh

/-- The handler chain of `example26.py` catches every exception (its
last clause is a bare `except`) and completes normally. -/
theorem example26_handler_ok (e : PyErr) (st : St26) :
    ∃ st2, example26_handler e st = .ok () st2 := by
  unfold example26_handler
  split_ifs <;> exact ⟨_, rfl⟩

/-- C4: in the exception-handling example scripts every exception
raised inside a try block is caught and the script terminates normally.
In `error_and_exception25.py`: `int('hi')` raises a `ValueError` caught
by the bare `except` (so the line 8 print of the value of `b` never
happens), `5/0` raises `ZeroDivisionError` caught by its specific
handler, the explicitly raised `TypeError` is caught by the `TypeError`
handler, and the `finally` line prints after the handler line.
In `example26.py`, for every stdin: the run completes normally and its
last printed line is the `finally` message. -/
theorem c4_theorem :
    error_and_exception25_run [] =
      .ok () [Line25.msg "Exception Caught!",
              .msg "Division by Zero is not possible.",
              .msg "Type Exception Caught!", .msg "Im in Try block",
              .msg "Im in Except block", .msg "Im in finally block"] ∧
    (error25_output.all (fun l => ! l.isValueOfB)) = true ∧
    ∀ stdin : List String,
      (example26_run ⟨stdin, []⟩).isOk = true ∧
      ((example26_run ⟨stdin, []⟩).state).out.getLast?
        = some (.msg "Anyways i will exceute") := by
  refine ⟨by decide, by decide, ?_⟩
  intro stdin
  obtain ⟨st2, h2⟩ :=
    pyTry_eq_ok example26_try_body example26_handler example26_handler_ok ⟨stdin, []⟩
  constructor
  · simp [example26_run, pyFinally, h2, example26_finally, print26, pyModify,
      PyResult.isOk]
  · simp [example26_run, pyFinally, h2, example26_finally, print26, pyModify,
      PyResult.state, List.getLast?_concat]

/-- Every script other than `directory_and_filemanage9.py` leaves the
filesystem exactly as it found it (in particular `example5.py`, whose
`open(..., 'w')` on line 153 is never reached). -/
theorem scriptFS_id (t : Script) (fs : FS)
    (h : t ≠ Script.directory_and_filemanage9) : scriptFS t fs = fs := by
  cases t
  case directory_and_filemanage9 => exact absurd rfl h
  all_goals rfl

/-- Every script other than `directory_and_filemanage9.py` prints no
filesystem-derived output at all. -/
theorem scriptObs_nonfs (s : Script)
    (h : s ≠ Script.directory_and_filemanage9) (fs : FS) :
    scriptObs s fs = [] := by
  cases s
  case directory_and_filemanage9 => exact absurd rfl h
  all_goals rfl

/-- C6: no script depends on another script of the repository. Every
module a script imports is a Python standard-library module and none is
a module of this repository; no script other than
`directory_and_filemanage9.py` changes the filesystem (the only shared
state); and therefore the filesystem-derived output of any script is
unchanged by first running any other script. -/
theorem c6_theorem :
    (∀ s : Script, ∀ m ∈ (summary s).imports,
      m ∈ pythonStdlibModules ∧ m ∉ repoModules) ∧
    (∀ (t : Script) (fs : FS), t ≠ Script.directory_and_filemanage9 →
      scriptFS t fs = fs) ∧
    (∀ (s t : Script) (fs : FS), s ≠ t →
      scriptObs s (scriptFS t fs) = scriptObs s fs) := by
  refine ⟨?_, scriptFS_id, ?_⟩
  · intro s
    cases s <;> decide
  · intro s t fs h
    by_cases ht : t = Script.directory_and_filemanage9
    · subst ht
      have hs : s ≠ Script.directory_and_filemanage9 := h
      rw [scriptObs_nonfs s hs, scriptObs_nonfs s hs]
    · rw [scriptFS_id t fs ht]

/-- C6 witness: the `math` import of `example5.py` is standard library
and not a repository module; running `example5.py` on the
demonstration filesystem leaves it unchanged, so the output of
`example33.py` is unaffected by it. -/
theorem c6_witness :
    ("math" ∈ pythonStdlibModules ∧ "math" ∉ repoModules) ∧
    scriptFS Script.example5 fsDemo = fsDemo ∧
    scriptObs Script.example33 (scriptFS Script.example5 fsDemo)
      = scriptObs Script.example33 fsDemo :=
  ⟨c6_theorem.1 Script.example5 "math" (by decide),
   c6_theorem.2.1 Script.example5 fsDemo (by decide),
   c6_theorem.2.2 Script.example33 Script.example5 fsDemo (by decide)⟩

/-- C2 counterexample. The claim states no script leaves persistent
data; `directory_and_filemanage9.py`, run on the demonstration
filesystem, terminates with the directory `New_folder` (which it
created and never removes) still present, though it was not there
before the run. -/
theorem c2_claim_false :
    nfPath ∈ (scriptFS Script.directory_and_filemanage9 fsDemo).dirs ∧
    nfPath ∉ fsDemo.dirs ∧ nfPath ∉ fsDemo.files := by
  decide

/-- C2 amended: every script except `directory_and_filemanage9.py`
leaves no persistent data (see `scriptFS_id` inside C6);
`directory_and_filemanage9.py` itself, run on any filesystem where its
hard-coded working directory and `Test.txt` exist and the names
`test_folder` and `New_folder` are fresh, terminates with the directory
`New_folder` it created still on the filesystem: state outlives the
script execution. -/
theorem c2_amended (fs : FS)
    (h1 : pyDir ∈ fs.dirs) (h2 : testTxtPath ∈ fs.files)
    (h3 : tfPath ∉ fs.dirs) (h4 : tfPath ∉ fs.files)
    (h5 : nfPath ∉ fs.dirs) (h6 : nfPath ∉ fs.files) :
    nfPath ∈ (scriptFS Script.directory_and_filemanage9 fs).dirs ∧
    nfPath ∉ fs.dirs := by
  refine ⟨?_, h5⟩
  have hres1 : FS.resolve fs pyDirString = pyDir := rfl
  have hdrop : tfPath.dropLast = pyDir := by decide
  have hnetf : ¬ (nfPath = tfPath) := by decide
  have hrm1 : remapPrefix tfPath nfPath tfPath = nfPath := by decide
  have hrmt : remapPrefix tfPath nfPath testTxtPath = testTxtPath := by decide
  have hmemf : testTxtPath ∈ fs.files.map (remapPrefix tfPath nfPath) :=
    List.mem_map.mpr ⟨testTxtPath, h2, hrmt⟩
  have hres2 : ∀ (d f : List EntryPath) (p : List (EntryPath × Nat)),
      FS.resolve ⟨d, f, pyDir, p⟩ "test_folder" = tfPath := fun _ _ _ => rfl
  have hres3 : ∀ (d f : List EntryPath) (p : List (EntryPath × Nat)),
      FS.resolve ⟨d, f, pyDir, p⟩ "New_folder" = nfPath := fun _ _ _ => rfl
  have hres4 : ∀ (d f : List EntryPath) (p : List (EntryPath × Nat)),
      FS.resolve ⟨d, f, pyDir, p⟩ "Test.txt" = testTxtPath := fun _ _ _ => rfl
  simp only [scriptFS, scriptRun, directory_and_filemanage9_run, bind_def,
    PyAct.bind, osPrintGetcwd, osChdir, osPrintListdir, osMkdir, osRename,
    osChmod, osRemove, osRmdir, pyModify, hres1]
  simp only [hres2, hres3, hres4, h1, if_pos, if_true, List.mem_cons,
    List.map_cons, hrm1, if_neg, h3, h4, h5, h6, hdrop, hnetf, hmemf, hrmt,
    or_false, false_or, or_true, true_or, eq_self_iff_true, not_false_iff,
    if_false]
  split_ifs <;> exact List.mem_cons_self _ _

/-- C2 amended witness: the demonstration filesystem satisfies the
preconditions, and the run leaves `New_folder` behind. -/
theorem c2_amended_witness :
    (pyDir ∈ fsDemo.dirs ∧ testTxtPath ∈ fsDemo.files ∧
     tfPath ∉ fsDemo.dirs ∧ tfPath ∉ fsDemo.files ∧
     nfPath ∉ fsDemo.dirs ∧ nfPath ∉ fsDemo.files) ∧
    (nfPath ∈ (scriptFS Script.directory_and_filemanage9 fsDemo).dirs ∧
     nfPath ∉ fsDemo.dirs) :=
  ⟨⟨by decide, by decide, by decide, by decide, by decide, by decide⟩,
   c2_amended fsDemo (by decide) (by decide) (by decide) (by decide)
     (by decide) (by decide)⟩

/-- C3 amended: exactly two scripts contain filesystem operations,
`directory_and_filemanage9.py` and `example5.py` (a file opened for
writing). `directory_and_filemanage9.py` contains a direct synchronous
call for each of creating a directory, renaming a directory, removing a
directory, changing permissions, and removing a file; and it has no
error recovery: when its `os.chdir` target does not exist, the raised
error propagates uncaught and the script dies at once. -/
theorem c3_amended :
    scriptsWithFsCalls = [Script.directory_and_filemanage9, Script.example5] ∧
    ([FsCallKind.mkdir, .rename, .rmdir, .chmod, .removeFile].all
      (fun k => (summary Script.directory_and_filemanage9).fsCalls.contains k)) = true ∧
    (∀ fs : FS, pyDir ∉ fs.dirs → pyDir ∉ fs.files →
      scriptCompletes Script.directory_and_filemanage9 fs = false) := by
  refine ⟨by decide, by decide, ?_⟩
  intro fs hd hf
  have hres1 : FS.resolve fs pyDirString = pyDir := rfl
  simp only [scriptCompletes, scriptRun, directory_and_filemanage9_run,
    bind_def, PyAct.bind, osPrintGetcwd, osChdir, pyModify, hres1,
    if_neg, hd, hf, if_false, PyResult.isOk]

/-- C3 amended witness: on an empty filesystem the chdir target is
missing and the script aborts without recovery. -/
theorem c3_amended_witness :
    pyDir ∉ (FS.mk [] [] [] []).dirs ∧ pyDir ∉ (FS.mk [] [] [] []).files ∧
    scriptCompletes Script.directory_and_filemanage9 (FS.mk [] [] [] []) = false :=
  ⟨by decide, by decide,
   c3_amended.2.2 (FS.mk [] [] [] []) (by decide) (by decide)⟩
